/-
Verification of the diff/dependency analysis and scoring engine of the
pr-review-agent repository, as a shallow embedding in Lean 4.

Python numbers are modelled as `ℚ` (all constants in the source are short
decimals), Python lists as `List`, dicts as association lists or option-valued
records, and fallible code as `Except String`.
-/
import Mathlib

set_option maxHeartbeats 1000000

namespace PRReview

/-- Python `round(x, 2)` scaled: round to the nearest integer, ties to even. -/
def roundHalfEven (x : ℚ) : ℤ :=
  if x - ⌊x⌋ < 1/2 then ⌊x⌋
  else if 1/2 < x - ⌊x⌋ then ⌊x⌋ + 1
  else if ⌊x⌋ % 2 = 0 then ⌊x⌋ else ⌊x⌋ + 1

/-- Python `round(x, 2)` on a rational. -/
def round2 (x : ℚ) : ℚ :=
  (roundHalfEven (x * 100) : ℚ) / 100

/-- A Python value, used for the loosely-typed `details` payloads. -/
inductive PyVal where
  | pyInt : Int → PyVal
  | pyStr : String → PyVal
  | pyList : List PyVal → PyVal
  | pyDict : List (String × PyVal) → PyVal

/-- Python's whitespace set for `str.strip()`: space, tab, newline, carriage
return, vertical tab, form feed. -/
def pyIsSpace (c : Char) : Bool :=
  c == ' ' || c == '\t' || c == '\n' || c == '\r' ||
    c == Char.ofNat 11 || c == Char.ofNat 12

/-- Python `str.strip()`. -/
def pyStrip (s : String) : String :=
  ⟨((s.toList.dropWhile pyIsSpace).reverse.dropWhile pyIsSpace).reverse⟩

/-- Is the first character list a prefix of the second? -/
def listPrefixOf : List Char → List Char → Bool
  | [], _ => true
  | _ :: _, [] => false
  | a :: as, b :: bs => a == b && listPrefixOf as bs

/-- Python `str.lower()` (ASCII range, which is all the source exercises). -/
def lowerStr (s : String) : String := String.mk (s.toList.map Char.toLower)

/-- Python `str.upper()` (ASCII range). -/
def upperStr (s : String) : String := String.mk (s.toList.map Char.toUpper)

/-- Split a character list on a separator, keeping empty segments
(Python `str.split(sep)` semantics); never returns `[]`. -/
def splitOnChar (sep : Char) : List Char → List (List Char)
  | [] => [[]]
  | c :: cs =>
    if c == sep then [] :: splitOnChar sep cs
    else
      match splitOnChar sep cs with
      | h :: t => (c :: h) :: t
      | [] => [[c]]

/-- Python `s.split(sep)` for a one-character separator. -/
def pySplit (sep : Char) (s : String) : List String :=
  (splitOnChar sep s.toList).map String.mk

/-- Python `s.startswith(p)`. -/
def strStarts (s p : String) : Bool := listPrefixOf p.toList s.toList

/-- Python `s.endswith(p)`. -/
def strEnds (s p : String) : Bool := listPrefixOf p.toList.reverse s.toList.reverse

/-- Python `s[n:]`. -/
def strDrop (s : String) (n : Nat) : String := String.mk (s.toList.drop n)

/-- Is the first character list a contiguous sublist of the second? -/
def listInfixOf (sub : List Char) : List Char → Bool
  | [] => listPrefixOf sub []
  | c :: cs => listPrefixOf sub (c :: cs) || listInfixOf sub cs

/-- Python `sub in s` on strings. -/
def strContains (s sub : String) : Bool := listInfixOf sub.toList s.toList

/-- Truthiness of an optional string: `None` and `""` are falsy. -/
def optStrFalsy : Option String → Bool
  | none => true
  | some s => s = ""

/-- Lookup in an association list modelling a Python dict. -/
def alookup {α : Type} (m : List (String × α)) (k : String) : Option α :=
  (m.find? (fun p => p.1 == k)).map (fun p => p.2)

/-- Python `dict.get(k, d)`. -/
def dictGet {α : Type} (m : List (String × α)) (k : String) (d : α) : α :=
  (alookup m k).getD d

/-- Python `dict[k] = v`: replace in place, or append a fresh key. -/
def dictSet {α : Type} (m : List (String × α)) (k : String) (v : α) :
    List (String × α) :=
  if m.any (fun p => p.1 == k) then
    m.map (fun p => if p.1 == k then (k, v) else p)
  else m ++ [(k, v)]

/-- Python `set.add`: Python sets are modelled as insertion-ordered duplicate-free
lists; the list order stands for the set's iteration order. -/
def setAdd (s : List String) (v : String) : List String :=
  if s.contains v then s else s ++ [v]

/-- Python `defaultdict(set)` edge insertion: `m[k].add(v)`. -/
def graphAdd (m : List (String × List String)) (k v : String) :
    List (String × List String) :=
  dictSet m k (setAdd (dictGet m k []) v)

namespace Re

/-!
A small matcher covering exactly the regular expressions appearing in the
analysis modules: literals, `.`, character classes (possibly negated), the
repetitions `?`, `*`, `+`, and unanchored `re.search`.  Matching is modelled as
existence of a match, which coincides with the truthiness of `re.search`.
-/

/-- A character class. -/
inductive CCls where
  | lit : Char → CCls
  | anyChar : CCls
  | word : CCls
  | whitespace : CCls
  | oneOf : List Char → CCls
  | notOneOf : List Char → CCls

/-- Repetition applied to a class. -/
inductive Rep where
  | one
  | opt
  | star
  | plus

/-- One token of a compiled pattern. -/
structure Tok where
  cls : CCls
  rep : Rep

/-- Does character `c` belong to the class? (`\w` and `\s` in their ASCII
reading, which is what the analysed inputs exercise). -/
def ccMatches : CCls → Char → Bool
  | .lit l, c => l == c
  | .anyChar, _ => true
  | .word, c => c.isAlphanum || c == '_'
  | .whitespace, c => c == ' ' || c == '\t' || c == '\n' || c == '\r' ||
      c == Char.ofNat 11 || c == Char.ofNat 12
  | .oneOf cs, c => cs.contains c
  | .notOneOf cs, c => !cs.contains c

/-- Anchored match: do the tokens match some prefix of `cs`? -/
def tmatch : List Tok → List Char → Bool
  | [], _ => true
  | ⟨_, .one⟩ :: _, [] => false
  | ⟨k, .one⟩ :: ts, c :: cs => ccMatches k c && tmatch ts cs
  | ⟨_, .opt⟩ :: ts, [] => tmatch ts []
  | ⟨k, .opt⟩ :: ts, c :: cs => tmatch ts (c :: cs) || (ccMatches k c && tmatch ts cs)
  | ⟨_, .star⟩ :: ts, [] => tmatch ts []
  | ⟨k, .star⟩ :: ts, c :: cs =>
      tmatch ts (c :: cs) || (ccMatches k c && tmatch (⟨k, .star⟩ :: ts) cs)
  | ⟨_, .plus⟩ :: _, [] => false
  | ⟨k, .plus⟩ :: ts, c :: cs => ccMatches k c && tmatch (⟨k, .star⟩ :: ts) cs
termination_by ts cs => ts.length + cs.length

/-- Unanchored match anywhere in the character list (`re.search`). -/
def srch (ts : List Tok) : List Char → Bool
  | [] => tmatch ts []
  | c :: cs => tmatch ts (c :: cs) || srch ts cs

/-- Python `re.search(pattern, s)` for a compiled pattern. -/
def search (ts : List Tok) (s : String) : Bool := srch ts s.toList

/-- Compile a literal string to tokens. -/
def lits (s : String) : List Tok := s.toList.map (fun c => ⟨.lit c, .one⟩)

/-- Compile a glob-converted pattern as in `RiskDetector._is_critical_file`:
the source replaces `*` by `.*` and `?` by `.`, so in the resulting regex `*`
is an arbitrary run, `?` and a literal `.` both match one arbitrary character. -/
def globToks (p : String) : List Tok :=
  p.toList.map (fun c =>
    if c == '*' then ⟨.anyChar, .star⟩
    else if c == '?' then ⟨.anyChar, .one⟩
    else if c == '.' then ⟨.anyChar, .one⟩
    else ⟨.lit c, .one⟩)

end Re

namespace DiffParser

/-- Python `ChangeType` from `app/analysis/diff_parser.py`. -/
inductive ChangeType where
  | added
  | removed
  | modified
  | context
deriving DecidableEq

/-- The `.value` attribute of the Python enum. -/
def ChangeType.value : ChangeType → String
  | .added => "added"
  | .removed => "removed"
  | .modified => "modified"
  | .context => "context"

/-- Python `LineChange` dataclass. -/
structure LineChange where
  line_number : Nat
  change_type : ChangeType
  content : String
  old_line_number : Option Nat := none
  new_line_number : Option Nat := none
deriving DecidableEq

/-- Python `HunkChange` dataclass. -/
structure HunkChange where
  old_start : Nat
  old_count : Nat
  new_start : Nat
  new_count : Nat
  lines : List LineChange
  header : String
deriving DecidableEq

/-- Python `FileDiff` dataclass. -/
structure FileDiff where
  filename : String
  old_filename : Option String
  is_new_file : Bool
  is_deleted_file : Bool
  is_renamed : Bool
  hunks : List HunkChange
  additions : Nat
  deletions : Nat
  language : Option String := none
deriving DecidableEq

/-- The `LANGUAGE_MAP` extension table of `DiffParser`. -/
def LANGUAGE_MAP : List (String × String) :=
  [("py", "python"), ("js", "javascript"), ("ts", "typescript"),
   ("jsx", "javascript"), ("tsx", "typescript"), ("java", "java"),
   ("go", "go"), ("rs", "rust"), ("cpp", "cpp"), ("c", "c"), ("h", "c"),
   ("hpp", "cpp"), ("cs", "csharp"), ("rb", "ruby"), ("php", "php"),
   ("swift", "swift"), ("kt", "kotlin"), ("scala", "scala"), ("sql", "sql"),
   ("sh", "shell"), ("bash", "shell"), ("yaml", "yaml"), ("yml", "yaml"),
   ("json", "json"), ("xml", "xml"), ("html", "html"), ("css", "css"),
   ("md", "markdown"), ("txt", "text")]

/-- Python `DiffParser._detect_language`. -/
def detect_language (filename : String) : Option String :=
  if filename.toList.contains '.' then
    alookup LANGUAGE_MAP (lowerStr ((pySplit '.' filename).getLastD ""))
  else none

/-- Update the element at an index (no-op when out of range). -/
def listModify {α : Type} (i : Nat) (f : α → α) : List α → List α
  | [] => []
  | x :: xs =>
    match i with
    | 0 => f x :: xs
    | n + 1 => x :: listModify n f xs

/-- Find the first occurrence of `sep` and split around it. -/
def splitFirst (sep : List Char) : List Char → Option (List Char × List Char)
  | [] => if sep.isEmpty then some ([], []) else none
  | c :: cs =>
    if listPrefixOf sep (c :: cs) then some ([], (c :: cs).drop sep.length)
    else
      match splitFirst sep cs with
      | some (pre, post) => some (c :: pre, post)
      | none => none

/-- Python `FILE_HEADER_PATTERN.match(line)`: `^diff --git a/(.*?) b/(.*?)$`.
The non-greedy first group captures up to the first occurrence of `" b/"`. -/
def parseFileHeader (line : String) : Option (String × String) :=
  if listPrefixOf "diff --git a/".toList line.toList then
    match splitFirst " b/".toList (line.toList.drop 13) with
    | some (pre, post) => some (String.mk pre, String.mk post)
    | none => none
  else none

/-- Numeric value of a digit run. -/
def digitsVal (ds : List Char) : Nat :=
  ds.foldl (fun n c => n * 10 + (c.toNat - 48)) 0

/-- Python `HUNK_HEADER_PATTERN.match(line)`:
`^@@ -(\d+)(?:,(\d+))? \+(\d+)(?:,(\d+))? @@(.*)$`.  Counts default to 1 when
the comma suffix is absent; a comma not followed by digits fails the match. -/
def parseHunkHeader (line : String) : Option (Nat × Nat × Nat × Nat × String) :=
  let cs := line.toList
  if listPrefixOf "@@ -".toList cs then
    let r1 := cs.drop 4
    let d1 := r1.takeWhile Char.isDigit
    if d1.isEmpty then none
    else
      let r2 := r1.drop d1.length
      let afterOld : Option (Nat × List Char) :=
        if (r2.headD ' ') == ',' then
          let d2 := (r2.drop 1).takeWhile Char.isDigit
          if d2.isEmpty then none
          else some (digitsVal d2, (r2.drop 1).drop d2.length)
        else some (1, r2)
      match afterOld with
      | none => none
      | some (old_count, r3) =>
        if listPrefixOf " +".toList r3 then
          let r4 := r3.drop 2
          let d3 := r4.takeWhile Char.isDigit
          if d3.isEmpty then none
          else
            let r5 := r4.drop d3.length
            let afterNew : Option (Nat × List Char) :=
              if (r5.headD ' ') == ',' then
                let d4 := (r5.drop 1).takeWhile Char.isDigit
                if d4.isEmpty then none
                else some (digitsVal d4, (r5.drop 1).drop d4.length)
              else some (1, r5)
            match afterNew with
            | none => none
            | some (new_count, r6) =>
              if listPrefixOf " @@".toList r6 then
                some (digitsVal d1, old_count, digitsVal d3, new_count,
                  String.mk (r6.drop 3))
              else none
        else none
  else none

/--
A `FileDiff` object under construction.  Python mutates `FileDiff` and
`HunkChange` objects through references and can append the same object to a
list twice, so the parser state below is a small heap: `PFile.hunkIds` and
`PState.fileIds` hold object identities into the two stores.
-/
structure PFile where
  filename : String
  old_filename : Option String
  is_new_file : Bool
  is_deleted_file : Bool
  is_renamed : Bool
  hunkIds : List Nat
  additions : Nat
  deletions : Nat

/-- The loop state of `DiffParser.parse_diff`. -/
structure PState where
  fileStore : List PFile
  fileIds : List Nat
  currentFile : Option Nat
  hunkStore : List HunkChange
  currentHunk : Option Nat

/-- Mutate the current file object, when one exists. -/
def modifyCurFile (st : PState) (f : PFile → PFile) : PState :=
  match st.currentFile with
  | some fid => { st with fileStore := listModify fid f st.fileStore }
  | none => st

/-- Flush the open hunk (if any) into the current file and append the current
file to `file_diffs` — the shared code at a `diff --git` line and at the end
of input. -/
def flushCurrent (st : PState) : PState :=
  match st.currentFile with
  | none => st
  | some fid =>
    let stHunk :=
      match st.currentHunk with
      | some hid =>
          { st with fileStore :=
              listModify fid (fun f => { f with hunkIds := f.hunkIds ++ [hid] }) st.fileStore }
      | none => st
    { stHunk with fileIds := stHunk.fileIds ++ [fid] }

/-- One iteration of the `parse_diff` line loop.  An `AttributeError` raised
by the Python code (attribute access on `current_file = None`) is modelled as
`Except.error`. -/
def step (st : PState) (line : String) : Except String PState :=
  if strStarts line "diff --git" then
    let st1 := flushCurrent st
    match parseFileHeader line with
    | some (oldName, newName) =>
        .ok { st1 with
                fileStore := st1.fileStore ++
                  [⟨newName, some oldName, false, false, false, [], 0, 0⟩],
                currentFile := some st1.fileStore.length,
                currentHunk := none }
    | none => .ok st1
  else if st.currentFile.isSome && strStarts line "new file mode" then
    .ok (modifyCurFile st (fun f => { f with is_new_file := true }))
  else if st.currentFile.isSome && strStarts line "deleted file mode" then
    .ok (modifyCurFile st (fun f => { f with is_deleted_file := true }))
  else if st.currentFile.isSome && strStarts line "rename from " then
    .ok (modifyCurFile st (fun f =>
      { f with is_renamed := true, old_filename := some (strDrop line 12) }))
  else if strStarts line "@@" then
    let flushed : Except String PState :=
      match st.currentHunk, st.currentFile with
      | some _, none => .error "AttributeError: NoneType has no attribute hunks"
      | some hid, some fid =>
          let fs := listModify fid (fun f => { f with hunkIds := f.hunkIds ++ [hid] })
            st.fileStore
          .ok { st with fileStore := fs }
      | none, _ => .ok st
    match flushed with
    | .error e => .error e
    | .ok st1 =>
      match parseHunkHeader line with
      | some (old_start, old_count, new_start, new_count, header) =>
          .ok { st1 with
                  hunkStore := st1.hunkStore ++
                    [⟨old_start, old_count, new_start, new_count, [], pyStrip header⟩],
                  currentHunk := some st1.hunkStore.length }
      | none => .ok st1
  else
    match st.currentHunk with
    | none => .ok st
    | some hid =>
      let hunk := (st.hunkStore[hid]?).getD ⟨0, 0, 0, 0, [], ""⟩
      if strStarts line "+" && !(strStarts line "+++") then
        let newLine : LineChange :=
          { line_number := hunk.lines.length, change_type := .added,
            content := strDrop line 1,
            new_line_number := some (hunk.new_start +
              hunk.lines.countP (fun l =>
                decide (l.change_type = .added ∨ l.change_type = .context))) }
        let hs := listModify hid (fun h => { h with lines := h.lines ++ [newLine] })
          st.hunkStore
        let st1 := { st with hunkStore := hs }
        match st1.currentFile with
        | some fid =>
            let fs := listModify fid (fun f => { f with additions := f.additions + 1 })
              st1.fileStore
            .ok { st1 with fileStore := fs }
        | none => .error "AttributeError: NoneType has no attribute additions"
      else if strStarts line "-" && !(strStarts line "---") then
        let newLine : LineChange :=
          { line_number := hunk.lines.length, change_type := .removed,
            content := strDrop line 1,
            old_line_number := some (hunk.old_start +
              hunk.lines.countP (fun l =>
                decide (l.change_type = .removed ∨ l.change_type = .context))) }
        let hs := listModify hid (fun h => { h with lines := h.lines ++ [newLine] })
          st.hunkStore
        let st1 := { st with hunkStore := hs }
        match st1.currentFile with
        | some fid =>
            let fs := listModify fid (fun f => { f with deletions := f.deletions + 1 })
              st1.fileStore
            .ok { st1 with fileStore := fs }
        | none => .error "AttributeError: NoneType has no attribute deletions"
      else if strStarts line " " then
        let hs := listModify hid (fun h => { h with lines := h.lines ++
          [{ line_number := h.lines.length, change_type := .context,
             content := strDrop line 1 }] }) st.hunkStore
        .ok { st with hunkStore := hs }
      else .ok st

/-- Materialize the Python `FileDiff` objects from the final parser state,
applying `_detect_language` to each as `parse_diff` does. -/
def materialize (st : PState) : List FileDiff :=
  st.fileIds.map (fun fid =>
    let pf := (st.fileStore[fid]?).getD ⟨"", none, false, false, false, [], 0, 0⟩
    { filename := pf.filename, old_filename := pf.old_filename,
      is_new_file := pf.is_new_file, is_deleted_file := pf.is_deleted_file,
      is_renamed := pf.is_renamed,
      hunks := pf.hunkIds.map (fun hid => (st.hunkStore[hid]?).getD ⟨0, 0, 0, 0, [], ""⟩),
      additions := pf.additions, deletions := pf.deletions,
      language := detect_language pf.filename })

/-- Python `DiffParser.parse_diff`. -/
def parse_diff (unified_diff : String) : Except String (List FileDiff) :=
  if unified_diff = "" ∨ pyStrip unified_diff = "" then .ok []
  else
    match (pySplit '\n' unified_diff).foldlM step ⟨[], [], none, [], none⟩ with
    | .error e => .error e
    | .ok st => .ok (materialize (flushCurrent st))

/-- Total additions and deletions over the parsed files. -/
def totalAdditionsDeletions (fds : List FileDiff) : Nat :=
  (fds.map (fun fd => fd.additions + fd.deletions)).sum

/-- Number of ADDED or REMOVED `LineChange` records across all hunks. -/
def countAddedRemoved (fds : List FileDiff) : Nat :=
  (fds.map (fun fd =>
    (fd.hunks.map (fun h => h.lines.countP (fun l =>
      decide (l.change_type = .added ∨ l.change_type = .removed)))).sum)).sum

end DiffParser

namespace DiffFetcher

/-- Python `FileChange` dataclass from `app/github/diff_fetcher.py`. -/
structure FileChange where
  filename : String
  status : String
  additions : Int
  deletions : Int
  changes : Int
  patch : Option String := none
  previous_filename : Option String := none
  blob_url : Option String := none
  raw_url : Option String := none

/-- Python `PRDiff` dataclass from `app/github/diff_fetcher.py`. -/
structure PRDiff where
  pr_number : Int
  base_sha : String
  head_sha : String
  total_additions : Int
  total_deletions : Int
  total_changes : Int
  files_changed : Int
  file_changes : List FileChange
  unified_diff : String
  size_category : String

end DiffFetcher

namespace Schemas

/-- Python `Severity` from `app/llm/schemas.py`. -/
inductive Severity where
  | info
  | warning
  | error
  | critical
deriving DecidableEq

/-- Python `Category` from `app/llm/schemas.py`. -/
inductive Category where
  | logic
  | security
  | performance
  | maintainability
  | testing
  | documentation
  | style
  | best_practices
deriving DecidableEq

/-- Python `ReviewRecommendation` from `app/llm/schemas.py`. -/
inductive ReviewRecommendation where
  | approve
  | comment
  | request_changes
deriving DecidableEq

/-- Python `ReviewComment` (Pydantic model). -/
structure ReviewComment where
  file_path : String
  line_number : Int
  severity : Severity
  category : Category
  message : String
  suggestion : Option String := none
  confidence : ℚ
deriving DecidableEq

/-- Python `ReviewSummary` (Pydantic model). -/
structure ReviewSummary where
  overview : String
  key_concerns : List String := []
  positive_aspects : List String := []
  risk_assessment : String
deriving DecidableEq

/-- Python `ConfidenceScore` (Pydantic model). -/
structure ConfidenceScore where
  overall : ℚ
  needs_human_review : Bool
  reasoning : String
  uncertain_areas : List String := []
deriving DecidableEq

/-- Python `CodeReview` (Pydantic model). -/
structure CodeReview where
  summary : ReviewSummary
  comments : List ReviewComment := []
  recommendation : ReviewRecommendation
  confidence : ConfidenceScore
deriving DecidableEq

/-- Python `CodeReview.has_blocking_issues`. -/
def CodeReview.has_blocking_issues (r : CodeReview) : Bool :=
  r.comments.any (fun c => decide (c.severity = .critical ∨ c.severity = .error))

/-- Python `CodeReview.get_comments_by_severity`. -/
def CodeReview.get_comments_by_severity (r : CodeReview) (s : Severity) :
    List ReviewComment :=
  r.comments.filter (fun c => decide (c.severity = s))

/-- Python `CodeReview.get_comments_by_category`. -/
def CodeReview.get_comments_by_category (r : CodeReview) (cat : Category) :
    List ReviewComment :=
  r.comments.filter (fun c => decide (c.category = cat))

/-- The Pydantic range validation on comment confidences
(`confidence: float = Field(..., ge=0.0, le=1.0)`): every constructed
`CodeReview` satisfies it. -/
def CodeReview.valid (r : CodeReview) : Prop :=
  ∀ c ∈ r.comments, 0 ≤ c.confidence ∧ c.confidence ≤ 1

end Schemas

namespace DependencyGraph

/-!
Embedding of `app/analysis/dependency_graph.py`.  The import-statement
regexes are compiled by hand into deterministic scanners; the analysis in the
comments of each matcher records why maximal-munch scanning coincides with the
Python regex engine's backtracking on these particular patterns.
-/

/-- Python `ImportStatement` dataclass. -/
structure ImportStatement where
  source_file : String
  imported_module : String
  import_type : String
  line_number : Option Nat := none
  is_relative : Bool := false
deriving DecidableEq

/-- Python `FileDependency` dataclass. -/
structure FileDependency where
  filepath : String
  imports : List ImportStatement
  imported_by : List String
  imports_from : List String
deriving DecidableEq

/-- The mutable state of a `DependencyGraph` instance. -/
structure DepGraph where
  dependencies : List (String × FileDependency)
  import_graph : List (String × List String)
  reverse_graph : List (String × List String)

/-- The fresh state built by `DependencyGraph.__init__`. -/
def DepGraph.init : DepGraph := ⟨[], [], []⟩

/-- A `\w` character (ASCII reading). -/
def isWordChar (c : Char) : Bool := c.isAlphanum || c == '_'

/-- A `[\w\.]` character. -/
def isWordDot (c : Char) : Bool := isWordChar c || c == '.'

/-- A `[\w\.\*,\s]` character (the second group of the Python import regex). -/
def isPyModListChar (c : Char) : Bool :=
  isWordDot c || c == '*' || c == ',' || pyIsSpace c

/-- A `[\w{},\s]` character (the destructuring part of the require regex). -/
def isReqClsChar (c : Char) : Bool :=
  isWordChar c || c == Char.ofNat 123 || c == Char.ofNat 125 || c == ',' || pyIsSpace c

/-- A quote character, `['"]`. -/
def isQuote (c : Char) : Bool := c == Char.ofNat 39 || c == '"'

/--
One attempted match of `PYTHON_IMPORT_PATTERN`
(`^\s*(?:from\s+([\w\.]+)\s+)?import\s+([\w\.\*,\s]+)` with `re.MULTILINE`)
at a line-start position.  Returns the two groups, the remaining input after
the match, and the last consumed character (used to decide whether the match
ended at a line start).

All repetitions except the final `\s+([\w\.\*,\s]+)` abut a disjoint
follower, so greedy maximal munch needs no backtracking there; in the final
part, when the module-list class cannot match after a maximal whitespace run
of length `t`, the engine backtracks `\s+` to `t-1` characters and the group
captures the final whitespace character (possible only when `2 ≤ t`).
-/
def matchPyImport (cs : List Char) : Option ((Option String × String) × List Char × Char) :=
  let rem0 := cs.dropWhile pyIsSpace
  let fromBranch : Option (String × List Char) :=
    if listPrefixOf "from".toList rem0 then
      let r1 := rem0.drop 4
      let t1 := (r1.takeWhile pyIsSpace).length
      if t1 = 0 then none
      else
        let r2 := r1.drop t1
        let g1 := r2.takeWhile isWordDot
        if g1.isEmpty then none
        else
          let r3 := r2.drop g1.length
          let t2 := (r3.takeWhile pyIsSpace).length
          if t2 = 0 then none
          else
            let r4 := r3.drop t2
            if listPrefixOf "import".toList r4 then some (String.mk g1, r4.drop 6)
            else none
    else none
  let afterImport : Option (Option String × List Char) :=
    match fromBranch with
    | some (g1, rem) => some (some g1, rem)
    | none =>
        if listPrefixOf "import".toList rem0 then some (none, rem0.drop 6) else none
  match afterImport with
  | none => none
  | some (g1, rem) =>
    let t := (rem.takeWhile pyIsSpace).length
    if t = 0 then none
    else
      let rem2 := rem.drop t
      let g2run := rem2.takeWhile isPyModListChar
      if 0 < g2run.length then
        some ((g1, String.mk g2run), rem2.drop g2run.length, g2run.getLastD ' ')
      else if 2 ≤ t then
        some ((g1, String.mk [(rem.take t).getLastD ' ']), rem2, (rem.take t).getLastD ' ')
      else none

/--
`re.finditer` over multiline content for an `^`-anchored pattern: try the
matcher at every line start, left to right, non-overlapping.  The `else`
branch of the inner length test is unreachable (a successful match consumes at
least the literal `import`/`require(`) and only discharges termination.
-/
def scanWith {α : Type} (matcher : List Char → Option (α × List Char × Char)) :
    List Char → Bool → List α
  | [], _ => []
  | c :: cs, atStart =>
    if atStart then
      match matcher (c :: cs) with
      | some (a, rest, lastC) =>
        if _h : rest.length ≤ cs.length then
          a :: scanWith matcher rest (lastC == '\n')
        else
          a :: scanWith matcher cs (c == '\n')
      | none => scanWith matcher cs (c == '\n')
    else scanWith matcher cs (c == '\n')
termination_by l _ => l.length
decreasing_by all_goals (simp only [List.length_cons]; omega)

/-- Python `DependencyGraph._parse_python_imports`. -/
def parse_python_imports (filepath content : String) : List ImportStatement :=
  (scanWith matchPyImport content.toList true).flatMap (fun m =>
    match m.1 with
    | some from_module =>
        [{ source_file := filepath, imported_module := from_module,
           import_type := "from_import",
           is_relative := strStarts from_module "." }]
    | none =>
        (pySplit ',' m.2).filterMap (fun piece =>
          let module := pyStrip piece
          if module ≠ "" ∧ module ≠ "*" then
            some { source_file := filepath, imported_module := module,
                   import_type := "import",
                   is_relative := strStarts module "." }
          else none))

/--
One attempted match of `JAVASCRIPT_IMPORT_PATTERN`
(`^\s*import\s+(?:{[^}]+}|[\w]+)\s+from\s+['"]([^'"]+)['"]`) at a line start.
The braced and bare-word alternatives start with disjoint characters, and each
repetition abuts a disjoint follower, so maximal munch is exact.
-/
def matchJsEs (cs : List Char) : Option (String × List Char × Char) :=
  let rem0 := cs.dropWhile pyIsSpace
  if listPrefixOf "import".toList rem0 then
    let r1 := rem0.drop 6
    let t1 := (r1.takeWhile pyIsSpace).length
    if t1 = 0 then none
    else
      let r2 := r1.drop t1
      let afterName : Option (List Char) :=
        if (r2.headD ' ') == Char.ofNat 123 then
          let inner := (r2.drop 1).takeWhile (fun c => c != Char.ofNat 125)
          if inner.isEmpty then none
          else
            let r4 := (r2.drop 1).drop inner.length
            if (r4.headD ' ') == Char.ofNat 125 then some (r4.drop 1) else none
        else
          let w := r2.takeWhile isWordChar
          if w.isEmpty then none else some (r2.drop w.length)
      match afterName with
      | none => none
      | some r5 =>
        let t2 := (r5.takeWhile pyIsSpace).length
        if t2 = 0 then none
        else
          let r6 := r5.drop t2
          if listPrefixOf "from".toList r6 then
            let r7 := r6.drop 4
            let t3 := (r7.takeWhile pyIsSpace).length
            if t3 = 0 then none
            else
              let r8 := r7.drop t3
              if isQuote (r8.headD ' ') then
                let r9 := r8.drop 1
                let modRun := r9.takeWhile (fun c => !(isQuote c))
                if modRun.isEmpty then none
                else
                  let r10 := r9.drop modRun.length
                  if isQuote (r10.headD ' ') then
                    some (String.mk modRun, r10.drop 1, r10.headD ' ')
                  else none
              else none
          else none
  else none

/--
One attempted match of `JAVASCRIPT_REQUIRE_PATTERN`
(`^\s*(?:const|let|var)\s+[\w{},\s]+\s*=\s*require\(['"]([^'"]+)['"]\)`) at a
line start.  As the binder class contains `\s`, when it cannot match after a
maximal whitespace run of length `t1 ≥ 2` the engine backtracks `\s+` by one
character and the class consumes the final whitespace character.
-/
def matchJsRequire (cs : List Char) : Option (String × List Char × Char) :=
  let rem0 := cs.dropWhile pyIsSpace
  let afterKw : Option (List Char) :=
    if listPrefixOf "const".toList rem0 then some (rem0.drop 5)
    else if listPrefixOf "let".toList rem0 then some (rem0.drop 3)
    else if listPrefixOf "var".toList rem0 then some (rem0.drop 3)
    else none
  match afterKw with
  | none => none
  | some r1 =>
    let t1 := (r1.takeWhile pyIsSpace).length
    if t1 = 0 then none
    else
      let r2 := r1.drop t1
      let clsRun := r2.takeWhile isReqClsChar
      let posAfter : Option (List Char) :=
        if 0 < clsRun.length then some (r2.drop clsRun.length)
        else if 2 ≤ t1 then some r2
        else none
      match posAfter with
      | none => none
      | some r3 =>
        if (r3.headD ' ') == '=' then
          let r4 := (r3.drop 1).dropWhile pyIsSpace
          if listPrefixOf "require(".toList r4 then
            let r5 := r4.drop 8
            if isQuote (r5.headD ' ') then
              let r6 := r5.drop 1
              let modRun := r6.takeWhile (fun c => !(isQuote c))
              if modRun.isEmpty then none
              else
                let r7 := r6.drop modRun.length
                if isQuote (r7.headD ' ') then
                  if ((r7.drop 1).headD ' ') == ')' then
                    some (String.mk modRun, r7.drop 2, ')')
                  else none
                else none
            else none
          else none
        else none

/-- Python `DependencyGraph._parse_javascript_imports`: ES matches first, then
CommonJS requires. -/
def parse_javascript_imports (filepath content : String) : List ImportStatement :=
  (scanWith matchJsEs content.toList true).map (fun m =>
    { source_file := filepath, imported_module := m,
      import_type := "import", is_relative := strStarts m "." }) ++
  (scanWith matchJsRequire content.toList true).map (fun m =>
    { source_file := filepath, imported_module := m,
      import_type := "require", is_relative := strStarts m "." })

/-- The extension table in `DependencyGraph._detect_language`. -/
def DG_LANGUAGE_MAP : List (String × String) :=
  [("py", "python"), ("js", "javascript"), ("jsx", "javascript"),
   ("ts", "typescript"), ("tsx", "typescript")]

/-- Python `DependencyGraph._detect_language`: `filepath.split('.')[-1].lower()`. -/
def detect_language (filepath : String) : Option String :=
  alookup DG_LANGUAGE_MAP (lowerStr ((pySplit '.' filepath).getLastD ""))

/-- Python `DependencyGraph.analyze_file_dependencies`: parses imports, replaces
`dependencies[filepath]`, and accumulates forward and reverse edges. -/
def analyze_file_dependencies (g : DepGraph) (filepath file_content : String)
    (language : Option String := none) : DepGraph × FileDependency :=
  let language := if optStrFalsy language then detect_language filepath else language
  let imports :=
    if language == some "python" then parse_python_imports filepath file_content
    else if language == some "javascript" || language == some "typescript" then
      parse_javascript_imports filepath file_content
    else []
  let file_dep : FileDependency :=
    { filepath := filepath, imports := imports, imported_by := [],
      imports_from := imports.map (fun imp => imp.imported_module) }
  let g1 : DepGraph := { g with dependencies := dictSet g.dependencies filepath file_dep }
  let g2 := imports.foldl (fun gg imp =>
    { gg with
        import_graph := graphAdd gg.import_graph filepath imp.imported_module,
        reverse_graph := graphAdd gg.reverse_graph imp.imported_module filepath }) g1
  (g2, file_dep)

/-- A sequence of `analyze_file_dependencies` calls on one instance. -/
def runAnalyses (g : DepGraph) (calls : List (String × String × Option String)) : DepGraph :=
  calls.foldl (fun gg call => (analyze_file_dependencies gg call.1 call.2.1 call.2.2).1) g

/-- An edge of one of the adjacency maps. -/
def edgeMem (m : List (String × List String)) (a b : String) : Prop :=
  b ∈ dictGet m a []

instance (m : List (String × List String)) (a b : String) :
    Decidable (edgeMem m a b) :=
  inferInstanceAs (Decidable (b ∈ dictGet m a []))

/-- A path of exactly `n` edges from `s` to `f` in an adjacency map: the
depth at which `get_impact_radius`'s traversal can reach `f` from `s`. -/
def reachN (rg : List (String × List String)) : Nat → String → String → Prop
  | 0, s, f => s = f
  | n + 1, s, f => ∃ m, reachN rg n s m ∧ f ∈ dictGet rg m []

/-- The closure state of `get_impact_radius`'s `traverse`. -/
structure TravState where
  impact : List (String × Nat)
  visited : List String

/-- The recursive `traverse(file, depth)` inside `get_impact_radius`.  The
extra `gas` argument is the loop variant `max_depth + 1 - depth`: every call
keeps `gas + depth = max_depth + 1`, so the `gas = 0` arm coincides with the
`depth > max_depth` early return of the source and is otherwise unreachable;
the source's guard is kept verbatim in the successor arm. -/
def traverse (rg : List (String × List String)) (maxDepth : Nat) :
    Nat → String → Nat → TravState → TravState
  | 0, _, _, st => st
  | gas + 1, file, depth, st =>
    if maxDepth < depth ∨ st.visited.contains file then st
    else
      let st1 : TravState :=
        ⟨dictSet st.impact file (min (dictGet st.impact file depth) depth),
         setAdd st.visited file⟩
      (dictGet rg file []).foldl
        (fun s dependent => traverse rg maxDepth gas dependent (depth + 1) s) st1

/-- Python `DependencyGraph.get_impact_radius`: traverse the reverse graph from every
changed file, then remove the changed files from the result. -/
def get_impact_radius (g : DepGraph) (changed_files : List String)
    (max_depth : Nat := 2) : List (String × Nat) :=
  let st := changed_files.foldl
    (fun st cf => traverse g.reverse_graph max_depth (max_depth + 1) cf 0 st) ⟨[], []⟩
  changed_files.foldl (fun imp cf => imp.filter (fun p => !(p.1 == cf))) st.impact

end DependencyGraph

namespace RiskDetector

/-- Python `RiskLevel` from `app/analysis/risk_detector.py`. -/
inductive RiskLevel where
  | low
  | medium
  | high
  | critical
deriving DecidableEq

/-- Python `RiskFinding` dataclass from `app/analysis/risk_detector.py`. -/
structure RiskFinding where
  risk_type : String
  level : RiskLevel
  message : String
  affected_files : List String
  details : Option PyVal := none

/-- Default `settings.CRITICAL_FILE_PATTERNS` from `app/config.py`. -/
def CRITICAL_FILE_PATTERNS : List String :=
  ["*/migrations/*", "*/settings.py", "*/config/*", "*/auth/*",
   "Dockerfile", "docker-compose.yml"]

/-- Python `RiskDetector.BREAKING_PATTERNS`, each paired with its compiled form. -/
def BREAKING_PATTERNS : List (String × List Re.Tok) :=
  [("def\\s+\\w+\\([^)]*\\)\\s*->",
    Re.lits "def" ++ [⟨.whitespace, .plus⟩, ⟨.word, .plus⟩, ⟨.lit '(', .one⟩,
      ⟨.notOneOf [')'], .star⟩, ⟨.lit ')', .one⟩, ⟨.whitespace, .star⟩] ++ Re.lits "->"),
   ("class\\s+\\w+\\([^)]*\\):",
    Re.lits "class" ++ [⟨.whitespace, .plus⟩, ⟨.word, .plus⟩, ⟨.lit '(', .one⟩,
      ⟨.notOneOf [')'], .star⟩, ⟨.lit ')', .one⟩, ⟨.lit ':', .one⟩]),
   ("function\\s+\\w+\\([^)]*\\)",
    Re.lits "function" ++ [⟨.whitespace, .plus⟩, ⟨.word, .plus⟩, ⟨.lit '(', .one⟩,
      ⟨.notOneOf [')'], .star⟩, ⟨.lit ')', .one⟩]),
   ("interface\\s+\\w+\\s*\x7b",
    Re.lits "interface" ++ [⟨.whitespace, .plus⟩, ⟨.word, .plus⟩,
      ⟨.whitespace, .star⟩, ⟨.lit (Char.ofNat 123), .one⟩]),
   ("type\\s+\\w+\\s*=",
    Re.lits "type" ++ [⟨.whitespace, .plus⟩, ⟨.word, .plus⟩,
      ⟨.whitespace, .star⟩, ⟨.lit '=', .one⟩]),
   ("public\\s+\\w+\\s+\\w+\\(",
    Re.lits "public" ++ [⟨.whitespace, .plus⟩, ⟨.word, .plus⟩,
      ⟨.whitespace, .plus⟩, ⟨.word, .plus⟩, ⟨.lit '(', .one⟩])]

/-- Python `RiskDetector.DB_MIGRATION_KEYWORDS`. -/
def DB_MIGRATION_KEYWORDS : List String :=
  ["DROP TABLE", "DROP COLUMN", "ALTER TABLE", "RENAME COLUMN",
   "CREATE INDEX", "DROP INDEX"]

/-- Python `RiskDetector.SECURITY_PATTERNS`, compiled (all-lowercase literals; the
source searches with `re.IGNORECASE`, modelled by lowercasing the subject). -/
def SECURITY_PATTERNS : List (List Re.Tok) :=
  [Re.lits "password",
   Re.lits "secret",
   Re.lits "api" ++ [⟨.oneOf ['_', '-'], .opt⟩] ++ Re.lits "key",
   Re.lits "token",
   Re.lits "auth",
   Re.lits "credential",
   Re.lits ".env"]

open DiffFetcher in
/-- Python `RiskDetector._is_critical_file`: glob patterns converted to regexes and
searched case-insensitively. -/
def is_critical_file (filepath : String) : Bool :=
  CRITICAL_FILE_PATTERNS.any (fun p =>
    Re.search (Re.globToks (lowerStr p)) (lowerStr filepath))

open DiffFetcher in
/-- Python `RiskDetector._detect_size_risks` (the findings it appends, in order). -/
def detect_size_risks (pr : PRDiff) : List RiskFinding :=
  (if pr.size_category = "very_large" then
    [{ risk_type := "large_pr", level := .high,
       message := "Very large PR with " ++ toString pr.total_changes ++
         " line changes. Consider splitting into smaller PRs for easier review.",
       affected_files := [],
       details := some (.pyDict [("total_changes", .pyInt pr.total_changes),
         ("files_changed", .pyInt pr.files_changed)]) }]
   else []) ++
  (if 20 < pr.files_changed then
    [{ risk_type := "many_files", level := .medium,
       message := "PR modifies " ++ toString pr.files_changed ++
         " files. High complexity may make review challenging.",
       affected_files := [],
       details := some (.pyDict [("files_changed", .pyInt pr.files_changed)]) }]
   else []) ++
  pr.file_changes.filterMap (fun fc =>
    if 300 < fc.changes then
      some ({ risk_type := "large_file_change", level := .medium,
              message := "Large changes in single file (" ++ toString fc.changes ++ " lines)",
              affected_files := [fc.filename],
              details := some (.pyDict [("changes", .pyInt fc.changes),
                ("additions", .pyInt fc.additions),
                ("deletions", .pyInt fc.deletions)]) } : RiskFinding)
    else none)

open DiffFetcher in
/-- Python `RiskDetector._detect_critical_file_risks`. -/
def detect_critical_file_risks (pr : PRDiff) : List RiskFinding :=
  let critical_files := pr.file_changes.filterMap (fun fc =>
    if is_critical_file fc.filename then some fc.filename else none)
  if critical_files.isEmpty then []
  else
    [{ risk_type := "critical_files", level := .high,
       message := "Changes to " ++ toString critical_files.length ++
         " critical file(s). Extra review attention required.",
       affected_files := critical_files,
       details := some (.pyDict [("file_count", .pyInt critical_files.length)]) }]

/-- The `config_extensions` list in `_detect_configuration_risks`. -/
def config_extensions : List String :=
  [".yaml", ".yml", ".json", ".toml", ".ini", ".conf", ".env", ".config"]

/-- The special config-file names checked in `_detect_configuration_risks`. -/
def special_config_names : List String :=
  ["dockerfile", "docker-compose", ".dockerignore",
   "nginx.conf", "package.json", "requirements.txt"]

open DiffFetcher in
/-- Python `RiskDetector._detect_configuration_risks`. -/
def detect_configuration_risks (pr : PRDiff) : List RiskFinding :=
  let config_files := pr.file_changes.filterMap (fun fc =>
    let fn := lowerStr fc.filename
    if config_extensions.any (fun e => strEnds fn e) then some fc.filename
    else if special_config_names.any (fun n => strContains fn n) then some fc.filename
    else none)
  if config_files.isEmpty then []
  else
    [{ risk_type := "configuration_changes", level := .medium,
       message := "Configuration files modified. Verify changes carefully.",
       affected_files := config_files,
       details := some (.pyDict [("config_files", .pyInt config_files.length)]) }]

/-- The migration-keyword list in `_detect_database_risks`. -/
def migration_name_keywords : List String :=
  ["migration", "migrate", "schema", "alembic", "flyway"]

open DiffFetcher in
/-- Python `RiskDetector._detect_database_risks`. -/
def detect_database_risks (pr : PRDiff) : List RiskFinding :=
  let migration_files := pr.file_changes.filterMap (fun fc =>
    if migration_name_keywords.any (fun k => strContains (lowerStr fc.filename) k) then
      some fc.filename
    else none)
  let risky_migrations := pr.file_changes.flatMap (fun fc =>
    if migration_name_keywords.any (fun k => strContains (lowerStr fc.filename) k) then
      match fc.patch with
      | some p => DB_MIGRATION_KEYWORDS.filterMap (fun kw =>
          if strContains (upperStr p) kw then
            some (PyVal.pyDict [("file", .pyStr fc.filename), ("operation", .pyStr kw)])
          else none)
      | none => []
    else [])
  if migration_files.isEmpty then []
  else
    [{ risk_type := "database_migration",
       level := if risky_migrations.isEmpty then .medium else .high,
       message := "Database migration detected. " ++
         (if risky_migrations.isEmpty then "" else "Potentially destructive operations found. ") ++
         "Ensure backward compatibility and rollback plan.",
       affected_files := migration_files,
       details := some (.pyDict [("migration_count", .pyInt migration_files.length),
         ("risky_operations", .pyList risky_migrations)]) }]

open DiffFetcher in
/-- Python `RiskDetector._detect_security_risks`.  The filename match appends
unconditionally (with an early break over patterns); the patch match
deduplicates against the accumulated list. -/
def detect_security_risks (pr : PRDiff) : List RiskFinding :=
  let security_files := pr.file_changes.foldl (fun acc fc =>
    let fn := lowerStr fc.filename
    let acc1 := if SECURITY_PATTERNS.any (fun t => Re.search t fn) then
        acc ++ [fc.filename]
      else acc
    match fc.patch with
    | some p =>
        if SECURITY_PATTERNS.any (fun t => Re.search t (lowerStr p)) then
          if acc1.contains fc.filename then acc1 else acc1 ++ [fc.filename]
        else acc1
    | none => acc1) []
  if security_files.isEmpty then []
  else
    [{ risk_type := "security_sensitive", level := .high,
       message := "Security-sensitive changes detected. Verify no credentials or secrets are exposed.",
       affected_files := security_files,
       details := some (.pyDict [("affected_files", .pyInt security_files.length)]) }]

open DiffFetcher in
/-- The findings produced by one `detect_risks` call, in source order. -/
def detect_risks_list (pr : PRDiff) : List RiskFinding :=
  detect_size_risks pr ++ detect_critical_file_risks pr ++
    detect_configuration_risks pr ++ detect_database_risks pr ++
    detect_security_risks pr

open DiffFetcher in
/-- Python `RiskDetector.detect_risks` as a state transformer on `self.findings`:
the method begins with `self.findings = []`, so the prior state is discarded;
it returns the new state together with the returned list (which alias in the
source). -/
def detect_risks (self_findings : List RiskFinding) (pr : PRDiff) :
    List RiskFinding × List RiskFinding :=
  let _ := self_findings
  (detect_risks_list pr, detect_risks_list pr)

/-- Python `RiskDetector.detect_breaking_changes` as a state transformer on
`self.findings`: scans removed lines against `BREAKING_PATTERNS` (first match
per line wins), extends the stored findings, and returns the new findings. -/
def detect_breaking_changes (self_findings : List RiskFinding)
    (file_diffs : List DiffParser.FileDiff) :
    List RiskFinding × List RiskFinding :=
  let breaking := file_diffs.flatMap (fun fd =>
    if optStrFalsy fd.language then []
    else fd.hunks.flatMap (fun h =>
      h.lines.filterMap (fun line =>
        if line.change_type.value = "removed" then
          match BREAKING_PATTERNS.find? (fun pt => Re.search pt.2 line.content) with
          | some pt =>
              some ({ risk_type := "breaking_change", level := .high,
                      message := "Potential breaking change: signature or interface modification",
                      affected_files := [fd.filename],
                      details := some (.pyDict [("pattern", .pyStr pt.1),
                        ("line", .pyStr (pyStrip line.content))]) } : RiskFinding)
          | none => none
        else none)))
  (self_findings ++ breaking, breaking)

/-- The `level_weights` table inside `calculate_overall_risk_score`. -/
def levelWeight : RiskLevel → ℚ
  | .low => 1/10
  | .medium => 3/10
  | .high => 6/10
  | .critical => 1

/-- Python `RiskDetector.calculate_overall_risk_score`, as a function of the stored
findings: zero findings give `0.0`; otherwise the level-weighted sum is divided
by `len(findings) * 0.5`, capped at `1.0` and rounded to two decimals. -/
def calculate_overall_risk_score (findings : List RiskFinding) : ℚ :=
  if findings.isEmpty then 0
  else
    let total_score := (findings.map (fun f => levelWeight f.level)).sum
    let score := min (total_score / (findings.length * (1/2 : ℚ))) 1
    round2 score

/-- Python `RiskDetector.get_recommendation`, as a function of the stored findings. -/
def get_recommendation (findings : List RiskFinding) : String :=
  let risk_score := calculate_overall_risk_score findings
  let has_critical := findings.any (fun f => decide (f.level = RiskLevel.critical))
  let high_risk_count := findings.countP (fun f => decide (f.level = RiskLevel.high))
  if has_critical = true ∨ 3 ≤ high_risk_count then "REQUEST_CHANGES"
  else if 1/2 < risk_score ∨ 0 < high_risk_count then "COMMENT"
  else "APPROVE"

/-- The level-weighted sum of a list of findings, written independently of
`calculate_overall_risk_score` for the statement of claim C6. -/
def weightSum (findings : List RiskFinding) : ℚ :=
  (findings.map (fun f => levelWeight f.level)).sum

end RiskDetector

namespace Confidence

open Schemas

/-!
Embedding of `app/agents/confidence.py`.  The untyped `context` dict is
modelled by `EvalContext`: each key the source reads is an option-valued
field, `None` standing for an absent key, and the whole context is an
`Option EvalContext` so that `context=None` is representable.
-/

/-- One static-analysis entry, e.g. `context["static_analysis"]["linting"]`;
`files_analyzed` defaults to `[]` as in `.get("files_analyzed", [])`. -/
structure ToolResult where
  files_analyzed : List String := []

/-- The `pr_info` sub-dict. -/
structure PRInfo where
  description : Option String := none

/-- The `diff_info` sub-dict. -/
structure DiffInfo where
  total_changes : Int := 0
  files : List String := []
  languages : List String := []

/-- The `static_analysis` sub-dict. -/
structure StaticAnalysis where
  linting : Option ToolResult := none
  security : Option ToolResult := none
  complexity : Option ToolResult := none

/-- The review context dict passed to `ConfidenceEvaluator.evaluate`. -/
structure EvalContext where
  pr_info : Option PRInfo := none
  diff_info : Option DiffInfo := none
  static_analysis : Option StaticAnalysis := none
  file_context : Bool := false

/-- Python `ConfidenceFactors` dataclass. -/
structure ConfidenceFactors where
  pr_size : String
  files_changed : Nat
  lines_changed : Int
  languages : List String
  has_tests : Bool
  linting_coverage : ℚ
  security_scan_coverage : ℚ
  complexity_analysis_coverage : ℚ
  num_comments : Nat
  avg_comment_confidence : ℚ
  has_critical_issues : Bool
  has_security_issues : Bool
  has_description : Bool
  has_related_files : Bool
  known_patterns : Bool

/-- Python `ConfidenceEvaluator._extract_factors`. -/
def extract_factors (review : CodeReview) (context : EvalContext) :
    ConfidenceFactors :=
  let pr_info := context.pr_info.getD {}
  let diff_info := context.diff_info.getD {}
  let static_analysis := context.static_analysis.getD {}
  let lines_changed := diff_info.total_changes
  let pr_size :=
    if lines_changed < 100 then "small"
    else if lines_changed < 500 then "medium"
    else if lines_changed < 1000 then "large"
    else "very_large"
  let files_changed := diff_info.files.length
  let linting_files := (static_analysis.linting.getD {}).files_analyzed.length
  let security_files := (static_analysis.security.getD {}).files_analyzed.length
  let complexity_files := (static_analysis.complexity.getD {}).files_analyzed.length
  let linting_coverage : ℚ := (linting_files : ℚ) / (max files_changed 1 : ℚ)
  let security_coverage : ℚ := (security_files : ℚ) / (max files_changed 1 : ℚ)
  let complexity_coverage : ℚ := (complexity_files : ℚ) / (max files_changed 1 : ℚ)
  let avg_confidence : ℚ :=
    if review.comments.isEmpty then 1/2
    else (review.comments.map (fun c => c.confidence)).sum / (review.comments.length : ℚ)
  let has_tests := diff_info.files.any (fun f => strContains (lowerStr f) "test")
  { pr_size := pr_size,
    files_changed := files_changed,
    lines_changed := lines_changed,
    languages := diff_info.languages,
    has_tests := has_tests,
    linting_coverage := linting_coverage,
    security_scan_coverage := security_coverage,
    complexity_analysis_coverage := complexity_coverage,
    num_comments := review.comments.length,
    avg_comment_confidence := avg_confidence,
    has_critical_issues := review.has_blocking_issues,
    has_security_issues := !(review.get_comments_by_category .security).isEmpty,
    has_description := !(optStrFalsy pr_info.description),
    has_related_files := context.file_context,
    known_patterns := true }

/-- Python `calculate_confidence_score` (module-level function). -/
def calculate_confidence_score (review : CodeReview) (factors : ConfidenceFactors) : ℚ :=
  let s1 : ℚ :=
    if factors.pr_size = "small" then 1
    else if factors.pr_size = "medium" then 85/100
    else if factors.pr_size = "large" then 65/100
    else if factors.pr_size = "very_large" then 45/100
    else 1/2
  let avg_coverage := (factors.linting_coverage + factors.security_scan_coverage +
    factors.complexity_analysis_coverage) / 3
  let context_score : ℚ :=
    (if factors.has_description then 1/4 else 0) +
    (if factors.has_tests then 1/4 else 0) +
    (if factors.has_related_files then 1/4 else 0) +
    (if factors.known_patterns then 1/4 else 0)
  let s5 : ℚ :=
    if factors.languages.any (fun l => lowerStr l == "python") then 9/10 else 6/10
  let scores : List ℚ := [s1, avg_coverage, factors.avg_comment_confidence, context_score, s5]
  let scores :=
    if factors.has_critical_issues then
      let critical_comments := review.get_comments_by_severity .critical
      if !critical_comments.isEmpty then
        let avg_crit := (critical_comments.map (fun c => c.confidence)).sum /
          (critical_comments.length : ℚ)
        if avg_crit < 8/10 then scores ++ [1/2] else scores
      else scores
    else scores
  let overall_confidence := scores.sum / (scores.length : ℚ)
  if factors.pr_size = "very_large" then min overall_confidence (75/100)
  else overall_confidence

/-- Python `needs_human_review` (module-level function). -/
def needsHumanReview (review : CodeReview) (confidence_score threshold : ℚ) : Bool :=
  if confidence_score < threshold then true
  else if review.has_blocking_issues &&
      (review.get_comments_by_severity .critical).any (fun c => decide (c.confidence < 8/10)) then
    true
  else
    let security_comments := review.get_comments_by_category .security
    if !security_comments.isEmpty &&
        security_comments.any (fun c => decide (c.confidence < 3/4)) then
      true
    else false

/-- Python `identify_uncertain_areas` (module-level function). -/
def identify_uncertain_areas (review : CodeReview) (factors : ConfidenceFactors) :
    List String :=
  (if factors.pr_size = "large" ∨ factors.pr_size = "very_large" then
    ["Large PR (" ++ toString factors.lines_changed ++ " lines changed)"]
   else []) ++
  (let low_confidence_comments := review.comments.filter (fun c => decide (c.confidence < 7/10))
   if !low_confidence_comments.isEmpty then
     let files := (low_confidence_comments.map (fun c => c.file_path)).eraseDups
     ["Low confidence in " ++ toString files.length ++ " file(s)"]
   else []) ++
  (if factors.linting_coverage < 1/2 then ["Limited linting coverage"] else []) ++
  (if factors.security_scan_coverage < 1/2 then ["Limited security scan coverage"] else []) ++
  (if !factors.has_tests then ["No test files in PR"] else []) ++
  (let non_python := factors.languages.filter (fun l => decide (lowerStr l ≠ "python"))
   if !non_python.isEmpty then
     ["Non-Python languages: " ++ String.intercalate ", " non_python]
   else [])

/-- Python `f"{x:.2f}"` on a rational. -/
def fmt2 (x : ℚ) : String :=
  let n := roundHalfEven (x * 100)
  let sign := if n < 0 then "-" else ""
  let m := n.natAbs
  let r := m % 100
  sign ++ toString (m / 100) ++ "." ++ (if r < 10 then "0" else "") ++ toString r

/-- Python `ConfidenceEvaluator._generate_reasoning`. -/
def generate_reasoning (confidence_score : ℚ) (factors : ConfidenceFactors)
    (needs_human : Bool) : String :=
  let quality :=
    if 85/100 ≤ confidence_score then "high"
    else if 7/10 ≤ confidence_score then "moderate"
    else "low"
  let parts : List String :=
    ["Review confidence is " ++ quality ++ " (" ++ fmt2 confidence_score ++ ")."] ++
    ["PR is " ++ factors.pr_size ++ " (" ++ toString factors.lines_changed ++
      " lines, " ++ toString factors.files_changed ++ " files)."] ++
    (if 8/10 < factors.linting_coverage then ["Good static analysis coverage."]
     else if factors.linting_coverage < 1/2 then ["Limited static analysis coverage."]
     else []) ++
    (if needs_human then ["Human review is recommended."] else [])
  String.intercalate " " parts

/-- The dict returned by `ConfidenceEvaluator.evaluate`.  Note it has no
`score` or `level` key. -/
structure EvalResult where
  overall_confidence : ℚ
  needs_human_review : Bool
  reasoning : String
  uncertain_areas : List String
  factors : ConfidenceFactors

/-- Python `ConfidenceEvaluator.evaluate` with the evaluator's threshold.  A `None`
context raises `AttributeError` inside `_extract_factors`
(`context.get("pr_info", {})`), modelled as `Except.error`. -/
def evaluate (review : CodeReview) (context : Option EvalContext)
    (threshold : ℚ := 7/10) : Except String EvalResult :=
  match context with
  | none => .error "AttributeError: NoneType object has no attribute get"
  | some ctx =>
    let factors := extract_factors review ctx
    let confidence_score := calculate_confidence_score review factors
    let needs_human := needsHumanReview review confidence_score threshold
    let uncertain_areas := identify_uncertain_areas review factors
    let reasoning := generate_reasoning confidence_score factors needs_human
    .ok { overall_confidence := confidence_score,
          needs_human_review := needs_human,
          reasoning := reasoning,
          uncertain_areas := uncertain_areas,
          factors := factors }

end Confidence

namespace Scorer

open Schemas

/-!
Embedding of `app/review/scorer.py`.  As in the confidence module, the
loosely-typed dict arguments are modelled by option-valued records covering
exactly the keys the source reads.
-/

/-- One entry of `static_analysis["security"]["issues"]`. -/
structure SecIssue where
  severity : Option String := none

/-- One entry of `complexity["high_complexity_functions"]`. -/
structure FuncData where
  complexity : ℚ := 0

/-- Python `static_analysis["complexity"]`. -/
structure ComplexityData where
  high_complexity_functions : List FuncData := []

/-- Python `static_analysis["security"]`. -/
structure SecurityData where
  issues : List SecIssue := []

/-- Python `static_analysis["coverage"]`. -/
structure CoverageData where
  coverage_percentage : ℚ := 0

/-- The `static_analysis` dict of the scorer. -/
structure ScorerSA where
  complexity : Option ComplexityData := none
  security : Option SecurityData := none
  coverage : Option CoverageData := none

/-- The `diff_info` dict of the scorer. -/
structure ScorerDiffInfo where
  total_changes : Int := 0
  files : List String := []

/-- The `risk_signals` dict (`Option` models `None`/`{}` falsiness). -/
structure RiskSignals where
  is_large_pr : Bool := false
  critical_files : Bool := false
  has_db_migration : Bool := false
  security_sensitive_files : Bool := false
  missing_tests : Bool := false

/-- Python `RiskScore` dataclass. -/
structure RiskScore where
  total : ℚ
  level : String
  severity_score : ℚ
  complexity_score : ℚ
  size_score : ℚ
  security_score : ℚ
  test_coverage_score : ℚ
  blocking_issues : Nat
  total_issues : Nat
  lines_changed : Int
  files_changed : Nat

/-- The `severity_weights` table in `_calculate_severity_score`. -/
def severityWeight : Severity → ℚ
  | .critical => 100
  | .error => 60
  | .warning => 30
  | .info => 5

/-- Python `_calculate_severity_score`. -/
def calculate_severity_score (review : CodeReview) : ℚ :=
  if review.comments.isEmpty then 0
  else
    let total_weight :=
      (review.comments.map (fun c => severityWeight c.severity * c.confidence)).sum
    min 100 (total_weight / (max review.comments.length 1 : ℚ) * (3/2))

/-- Python `_calculate_complexity_score`. -/
def calculate_complexity_score (static_analysis : Option ScorerSA) : ℚ :=
  match static_analysis with
  | none => 30
  | some sa =>
    match sa.complexity with
    | none => 30
    | some cd =>
      if cd.high_complexity_functions.isEmpty then 10
      else
        let avg_complexity := (cd.high_complexity_functions.map (fun f => f.complexity)).sum /
          (cd.high_complexity_functions.length : ℚ)
        let score : ℚ :=
          if 20 < avg_complexity then 90
          else if 15 < avg_complexity then 70
          else if 10 < avg_complexity then 50
          else 30
        let num_complex := min cd.high_complexity_functions.length 10
        min 100 (score * (1/2 + (1/20) * (num_complex : ℚ)))

/-- Python `_calculate_size_score`. -/
def calculate_size_score (diff_info : ScorerDiffInfo) : ℚ :=
  let lines_changed := diff_info.total_changes
  let files_changed := diff_info.files.length
  let lines_score : ℚ :=
    if lines_changed < 50 then 5
    else if lines_changed < 200 then 20
    else if lines_changed < 500 then 40
    else if lines_changed < 1000 then 60
    else 80
  let files_score : ℚ :=
    if files_changed < 3 then 5
    else if files_changed < 10 then 20
    else if files_changed < 25 then 40
    else 60
  lines_score * (7/10) + files_score * (3/10)

/-- Python `_calculate_security_score`. -/
def calculate_security_score (review : CodeReview)
    (static_analysis : Option ScorerSA) : ℚ :=
  let security_comments := review.get_comments_by_category .security
  let score : ℚ :=
    if !security_comments.isEmpty then
      if security_comments.any (fun c => decide (c.severity = .critical ∨ c.severity = .error)) then
        95
      else 60
    else 0
  match static_analysis with
  | none => score
  | some sa =>
    match sa.security with
    | none => score
    | some sec =>
      if sec.issues.isEmpty then score
      else
        let high_severity := sec.issues.countP (fun i =>
          decide (i.severity = some "HIGH" ∨ i.severity = some "CRITICAL"))
        let medium_severity := sec.issues.countP (fun i => decide (i.severity = some "MEDIUM"))
        if 0 < high_severity then max score 90
        else if 2 < medium_severity then max score 60
        else max score 40

/-- Python `_calculate_test_coverage_score`. -/
def calculate_test_coverage_score (diff_info : ScorerDiffInfo)
    (static_analysis : Option ScorerSA) : ℚ :=
  let files := diff_info.files
  let has_tests := files.any (fun f => strContains (lowerStr f) "test")
  let only_tests :=
    if files.isEmpty then false
    else files.all (fun f => strContains (lowerStr f) "test")
  if only_tests then 0
  else
    let has_production_code := files.any (fun f =>
      !(strContains (lowerStr f) "test" || strEnds f ".md" || strEnds f ".txt"))
    if has_production_code && !has_tests then 70
    else if has_production_code && has_tests then 30
    else
      match static_analysis with
      | some sa =>
        match sa.coverage with
        | some cov => max 0 (100 - cov.coverage_percentage)
        | none => 40
      | none => 40

/-- Python `_apply_risk_signal_modifiers`. -/
def apply_risk_signal_modifiers (base_score : ℚ) (risk_signals : RiskSignals) : ℚ :=
  let score := base_score
  let score := if risk_signals.is_large_pr then score * (12/10) else score
  let score := if risk_signals.critical_files then score * (115/100) else score
  let score := if risk_signals.has_db_migration then score * (125/100) else score
  let score := if risk_signals.security_sensitive_files then score * (12/10) else score
  let score := if risk_signals.missing_tests then score * (11/10) else score
  min 100 score

/-- Python `calculate_risk_score`. -/
def calculate_risk_score (review : CodeReview) (diff_info : ScorerDiffInfo)
    (static_analysis : Option ScorerSA := none)
    (risk_signals : Option RiskSignals := none) : RiskScore :=
  let severity_score := calculate_severity_score review
  let complexity_score := calculate_complexity_score static_analysis
  let size_score := calculate_size_score diff_info
  let security_score := calculate_security_score review static_analysis
  let test_coverage_score := calculate_test_coverage_score diff_info static_analysis
  let total_score :=
    severity_score * (35/100) + security_score * (25/100) +
    complexity_score * (15/100) + size_score * (15/100) +
    test_coverage_score * (1/10)
  let total_score :=
    match risk_signals with
    | some rs => apply_risk_signal_modifiers total_score rs
    | none => total_score
  let level :=
    if total_score ≤ 25 then "low"
    else if total_score ≤ 50 then "medium"
    else if total_score ≤ 75 then "high"
    else "critical"
  let blocking_issues := review.comments.countP (fun c =>
    decide (c.severity = .critical ∨ c.severity = .error))
  { total := total_score, level := level,
    severity_score := severity_score, complexity_score := complexity_score,
    size_score := size_score, security_score := security_score,
    test_coverage_score := test_coverage_score,
    blocking_issues := blocking_issues, total_issues := review.comments.length,
    lines_changed := diff_info.total_changes, files_changed := diff_info.files.length }

end Scorer

/-- A minimal valid `CodeReview` used as a concrete input in several
evaluations below. -/
def sampleReview : Schemas.CodeReview :=
  { summary := { overview := "A short, well-formed summary of the change set.",
                 risk_assessment := "low" },
    comments := [],
    recommendation := .approve,
    confidence := { overall := 9/10, needs_human_review := false,
                    reasoning := "clean" } }

/-- A context in which the linting tool reports more analyzed files than the
PR changed (1 changed file, 2 analyzed). -/
def overCoverageContext : Confidence.EvalContext :=
  { diff_info := some { files := ["a.py"] },
    static_analysis := some { linting := some { files_analyzed := ["a.py", "b.py"] } } }

/-- A dependency-graph state whose reverse graph reaches `x` from the changed
file `a` in two hops (via `b`) and from the changed file `d` in one hop. -/
def impactExampleGraph : DependencyGraph.DepGraph :=
  ⟨[], [], [("a", ["b"]), ("b", ["x"]), ("d", ["x"])]⟩

/-- A graph state with one pre-existing forward and reverse edge. -/
def preEdgeGraph : DependencyGraph.DepGraph :=
  ⟨[], [("a.py", ["m"])], [("m", ["a.py"])]⟩

/-- A scorer static-analysis dict carrying only a (nonsensical, but
unvalidated) negative coverage percentage. -/
def negativeCoverageSA : Scorer.ScorerSA :=
  { coverage := some { coverage_percentage := -2000 } }

/-- Risk signals with all five multipliers enabled. -/
def allSignals : Scorer.RiskSignals :=
  { is_large_pr := true, critical_files := true, has_db_migration := true,
    security_sensitive_files := true, missing_tests := true }

theorem roundHalfEven_nonneg {x : ℚ} (h : 0 ≤ x) : 0 ≤ roundHalfEven x := by
  have hf0 : (0 : ℤ) ≤ ⌊x⌋ := Int.floor_nonneg.mpr h
  unfold roundHalfEven
  split_ifs <;> omega

theorem roundHalfEven_le_of_le {x : ℚ} {n : ℤ} (h : x ≤ n) : roundHalfEven x ≤ n := by
  have hfn : ⌊x⌋ ≤ n := by
    calc ⌊x⌋ ≤ ⌊(n : ℚ)⌋ := Int.floor_le_floor h
    _ = n := Int.floor_intCast n
  unfold roundHalfEven
  split_ifs with h1 h2 h3
  · exact hfn
  · -- here 1/2 < x - ⌊x⌋, so ⌊x⌋ + 1/2 < x ≤ n, hence ⌊x⌋ < n
    have hlt : (⌊x⌋ : ℚ) < n := by
      have := Int.floor_le x
      linarith
    have : ⌊x⌋ < n := by exact_mod_cast hlt
    omega
  · exact hfn
  · -- tie case: x - ⌊x⌋ = 1/2 exactly, so ⌊x⌋ < x ≤ n
    have heq : x - (⌊x⌋ : ℚ) = 1/2 := le_antisymm (not_lt.mp h2) (not_lt.mp h1)
    have hlt : (⌊x⌋ : ℚ) < n := by linarith
    have : ⌊x⌋ < n := by exact_mod_cast hlt
    omega

theorem round2_nonneg {x : ℚ} (h : 0 ≤ x) : 0 ≤ round2 x := by
  unfold round2
  have h100 : (0 : ℚ) ≤ x * 100 := by linarith
  have := roundHalfEven_nonneg h100
  positivity

theorem round2_le_one {x : ℚ} (h : x ≤ 1) : round2 x ≤ 1 := by
  unfold round2
  have h100 : x * 100 ≤ ((100 : ℤ) : ℚ) := by push_cast; linarith
  have hle := roundHalfEven_le_of_le h100
  have : ((roundHalfEven (x * 100)) : ℚ) ≤ 100 := by exact_mod_cast hle
  linarith

namespace RiskDetector

theorem levelWeight_nonneg (l : RiskLevel) : 0 ≤ levelWeight l := by
  cases l <;> norm_num [levelWeight]

theorem weightSum_nonneg (findings : List RiskFinding) : 0 ≤ weightSum findings := by
  unfold weightSum
  induction findings with
  | nil => simp
  | cons f fs ih =>
    simp only [List.map_cons, List.sum_cons]
    have hw := levelWeight_nonneg f.level
    linarith

theorem calculate_eq_round2 (findings : List RiskFinding) (h : findings ≠ []) :
    calculate_overall_risk_score findings =
      round2 (min (weightSum findings / ((findings.length : ℚ) * (1/2))) 1) := by
  have hne : findings.isEmpty = false := by
    cases findings with
    | nil => exact absurd rfl h
    | cons a l => rfl
  simp only [calculate_overall_risk_score, hne, Bool.false_eq_true, if_false, weightSum]

theorem score_arg_bounds (findings : List RiskFinding) (h : findings ≠ []) :
    0 ≤ min (weightSum findings / ((findings.length : ℚ) * (1/2))) 1 ∧
      min (weightSum findings / ((findings.length : ℚ) * (1/2))) 1 ≤ 1 := by
  have hlen : 0 < (findings.length : ℚ) := by
    have : 0 < findings.length := List.length_pos.mpr h
    exact_mod_cast this
  have hden : 0 < (findings.length : ℚ) * (1/2) := by positivity
  constructor
  · apply le_min
    · exact div_nonneg (weightSum_nonneg findings) (le_of_lt hden)
    · norm_num
  · exact min_le_right _ _

/-- Claim C6: `calculate_overall_risk_score` returns exactly 0 on zero findings
and exactly 1 on a single CRITICAL finding; in general, on a non-empty findings
list it returns the level-weighted sum (LOW 0.1, MEDIUM 0.3, HIGH 0.6,
CRITICAL 1.0) divided by `count * 0.5`, clamped to `[0,1]` and rounded to two
decimal places. -/
theorem C6_overall_risk_score :
    calculate_overall_risk_score [] = 0 ∧
    (∀ f : RiskFinding, f.level = RiskLevel.critical →
      calculate_overall_risk_score [f] = 1) ∧
    (∀ findings : List RiskFinding, findings ≠ [] →
      calculate_overall_risk_score findings =
        round2 (min (weightSum findings / ((findings.length : ℚ) * (1/2))) 1) ∧
      0 ≤ calculate_overall_risk_score findings ∧
      calculate_overall_risk_score findings ≤ 1) := by
  refine ⟨rfl, ?_, ?_⟩
  · intro f hf
    rw [calculate_eq_round2 _ (List.cons_ne_nil f [])]
    have hws : weightSum [f] = 1 := by
      simp [weightSum, hf, levelWeight]
    rw [hws]
    norm_num
    norm_num [round2, roundHalfEven]
  · intro findings h
    obtain ⟨h0, h1⟩ := score_arg_bounds findings h
    refine ⟨calculate_eq_round2 findings h, ?_, ?_⟩
    · rw [calculate_eq_round2 findings h]
      exact round2_nonneg h0
    · rw [calculate_eq_round2 findings h]
      exact round2_le_one h1

theorem C6_overall_risk_score_witness :
    calculate_overall_risk_score
        [({ risk_type := "security_sensitive", level := RiskLevel.critical,
            message := "m", affected_files := [] } : RiskFinding)] = 1 ∧
      calculate_overall_risk_score
        [({ risk_type := "many_files", level := RiskLevel.medium,
            message := "m", affected_files := [] } : RiskFinding)] ≤ 1 :=
  ⟨C6_overall_risk_score.2.1 _ rfl,
    (C6_overall_risk_score.2.2 _ (List.cons_ne_nil _ _)).2.2⟩

/-- Claim C7: `get_recommendation` returns REQUEST_CHANGES if any finding is
CRITICAL or at least 3 findings are HIGH; otherwise COMMENT if the overall risk
score exceeds 0.5 or any finding is HIGH; otherwise APPROVE. -/
theorem C7_get_recommendation (findings : List RiskFinding) :
    ((∃ f ∈ findings, f.level = RiskLevel.critical) ∨
        3 ≤ findings.countP (fun f => decide (f.level = RiskLevel.high)) →
      get_recommendation findings = "REQUEST_CHANGES") ∧
    (¬ ((∃ f ∈ findings, f.level = RiskLevel.critical) ∨
        3 ≤ findings.countP (fun f => decide (f.level = RiskLevel.high))) →
      (1/2 < calculate_overall_risk_score findings ∨
          ∃ f ∈ findings, f.level = RiskLevel.high) →
      get_recommendation findings = "COMMENT") ∧
    (¬ ((∃ f ∈ findings, f.level = RiskLevel.critical) ∨
        3 ≤ findings.countP (fun f => decide (f.level = RiskLevel.high))) →
      ¬ (1/2 < calculate_overall_risk_score findings ∨
          ∃ f ∈ findings, f.level = RiskLevel.high) →
      get_recommendation findings = "APPROVE") := by
  have hcrit : (findings.any (fun f => decide (f.level = RiskLevel.critical)) = true) ↔
      (∃ f ∈ findings, f.level = RiskLevel.critical) := by
    simp [List.any_eq_true]
  have hhigh : (0 < findings.countP (fun f => decide (f.level = RiskLevel.high))) ↔
      (∃ f ∈ findings, f.level = RiskLevel.high) := by
    rw [List.countP_pos_iff]
    simp
  refine ⟨?_, ?_, ?_⟩
  · intro h
    simp only [get_recommendation]
    rw [if_pos]
    rcases h with h | h
    · exact Or.inl (hcrit.mpr h)
    · exact Or.inr h
  · intro hn h
    simp only [get_recommendation]
    rw [if_neg, if_pos]
    · rcases h with h | h
      · exact Or.inl h
      · exact Or.inr (hhigh.mpr h)
    · rintro (hc | hc)
      · exact hn (Or.inl (hcrit.mp hc))
      · exact hn (Or.inr hc)
  · intro hn1 hn2
    simp only [get_recommendation]
    rw [if_neg, if_neg]
    · rintro (hc | hc)
      · exact hn2 (Or.inl hc)
      · exact hn2 (Or.inr (hhigh.mp hc))
    · rintro (hc | hc)
      · exact hn1 (Or.inl (hcrit.mp hc))
      · exact hn1 (Or.inr hc)

theorem C7_get_recommendation_witness :
    get_recommendation
        [({ risk_type := "breaking_change", level := RiskLevel.critical,
            message := "m", affected_files := [] } : RiskFinding)] =
      "REQUEST_CHANGES" :=
  (C7_get_recommendation _).1 (Or.inl ⟨_, List.mem_singleton.mpr rfl, rfl⟩)

/-- Claim C10: `detect_risks` begins with `self.findings = []`, so detectors
with arbitrary different prior histories produce identical results for the
same `pr_diff`, the stored findings equal the returned list, and
breaking-change findings recorded beforehand are discarded. -/
theorem C10_detect_risks_resets (s1 s2 : List RiskFinding)
    (pr : DiffFetcher.PRDiff) (fds : List DiffParser.FileDiff) :
    detect_risks s1 pr = detect_risks s2 pr ∧
    (detect_risks s1 pr).1 = (detect_risks s1 pr).2 ∧
    detect_risks (detect_breaking_changes s1 fds).1 pr = detect_risks s2 pr :=
  ⟨rfl, rfl, rfl⟩

end RiskDetector

namespace DiffParser

/-- Claim C2 (refuted — code bug): `parse_diff` raises `AttributeError` on a
diff whose hunk appears before any `diff --git` header: the `+x` content line
is appended to the open hunk and then `current_file.additions += 1` executes
with `current_file = None`. -/
theorem C2_parse_diff_raises :
    parse_diff "@@ -1 +1 @@\n+x" =
      Except.error "AttributeError: NoneType has no attribute additions" := by
  rfl

/-- Claim C3 (refuted — code bug): after a malformed `@@` line the open hunk
object has already been appended to `current_file.hunks` while `current_hunk`
still references it, so the final flush appends the same object a second
time; its single ADDED line is then counted twice across hunks although
`additions + deletions` counted it once (1 ≠ 2). -/
theorem C3_additions_mismatch :
    (parse_diff "diff --git a/f.py b/f.py\n@@ -1 +1 @@\n@@x\n+x").map
        (fun fds => (totalAdditionsDeletions fds, countAddedRemoved fds)) =
      Except.ok (1, 2) := by
  rfl

end DiffParser

namespace Confidence

/-- Claim C1 (counterexample): `evaluate` called with `context = None`
propagates an `AttributeError` instead of returning the claimed
score-0.65/level-"medium" fallback — the method has no exception handler. -/
theorem C1_counterexample :
    evaluate sampleReview none (7/10) =
      Except.error "AttributeError: NoneType object has no attribute get" := rfl

/-- Claim C1 (amended): for every review and every dict context (including
the empty dict) `evaluate` returns normally; a `None` context raises
`AttributeError` inside `_extract_factors`; there is no fallback path
producing score 0.65 and level "medium". -/
theorem C1_evaluate_amended :
    (∀ (review : Schemas.CodeReview) (ctx : EvalContext) (threshold : ℚ),
      ∃ r, evaluate review (some ctx) threshold = Except.ok r) ∧
    (∀ (review : Schemas.CodeReview) (threshold : ℚ),
      evaluate review none threshold =
        Except.error "AttributeError: NoneType object has no attribute get") :=
  ⟨fun _ _ _ => ⟨_, rfl⟩, fun _ _ => rfl⟩

/-- Claim C4 (refuted — code bug): the static-analysis coverage fractions in
`_extract_factors` are not clamped: with 1 changed file and 2 analyzed files
the linting coverage is 2.0, exceeding the 0.0–1.0 range documented on the
`ConfidenceFactors` dataclass. -/
theorem C4_coverage_exceeds_one :
    (extract_factors sampleReview overCoverageContext).linting_coverage = 2 ∧
    1 < (extract_factors sampleReview overCoverageContext).linting_coverage := by
  have h : (extract_factors sampleReview overCoverageContext).linting_coverage = 2 := by
    norm_num [extract_factors, sampleReview, overCoverageContext]
  refine ⟨h, ?_⟩
  rw [h]
  norm_num

end Confidence

namespace DependencyGraph

theorem alookup_map_replace {α : Type} (m : List (String × α)) (k a : String)
    (v : α) (h : a ≠ k) :
    alookup (m.map (fun p => if p.1 == k then (k, v) else p)) a = alookup m a := by
  induction m with
  | nil => rfl
  | cons p m ih =>
    by_cases hpk : (p.1 == k) = true
    · have hpk1 : p.1 = k := by simpa [beq_iff_eq] using hpk
      have hka : (k == a) = false := beq_eq_false_iff_ne.mpr (Ne.symm h)
      have hpa : (p.1 == a) = false := by rw [hpk1]; exact hka
      have hrec := ih
      simp only [List.map_cons, alookup, List.find?, hpa, hka, hpk, if_true,
        Bool.false_eq_true] at hrec ⊢
      simpa [alookup] using hrec
    · have hpk2 : (p.1 == k) = false := by simpa using hpk
      by_cases hpa : (p.1 == a) = true
      · simp [alookup, List.find?, hpk2, hpa]
      · have hpa2 : (p.1 == a) = false := by simpa using hpa
        have hrec := ih
        simp only [List.map_cons, alookup, List.find?, hpk2, hpa2,
          Bool.false_eq_true, if_false] at hrec ⊢
        simpa [alookup] using hrec

theorem alookup_map_replace_self {α : Type} (m : List (String × α)) (k : String)
    (v : α) (hany : m.any (fun p => p.1 == k) = true) :
    alookup (m.map (fun p => if p.1 == k then (k, v) else p)) k = some v := by
  induction m with
  | nil => simp at hany
  | cons p m ih =>
    by_cases hpk : (p.1 == k) = true
    · simp [alookup, List.find?, hpk]
    · have hpk2 : (p.1 == k) = false := by simpa using hpk
      simp only [List.any_cons, hpk2, Bool.false_or] at hany
      have hrec := ih hany
      simp only [List.map_cons, alookup, List.find?, hpk2, Bool.false_eq_true, if_false] at hrec ⊢
      simpa [alookup] using hrec

theorem alookup_append_single {α : Type} (m : List (String × α)) (k : String)
    (v : α) (hnone : m.any (fun p => p.1 == k) = false) :
    alookup (m ++ [(k, v)]) k = some v := by
  induction m with
  | nil => simp [alookup, List.find?]
  | cons p m ih =>
    simp only [List.any_cons, Bool.or_eq_false_iff] at hnone
    have hrec := ih hnone.2
    simp only [List.cons_append, alookup, List.find?, hnone.1, Bool.false_eq_true] at hrec ⊢
    simpa [alookup] using hrec

theorem alookup_append_single_ne {α : Type} (m : List (String × α)) (k a : String)
    (v : α) (h : a ≠ k) :
    alookup (m ++ [(k, v)]) a = alookup m a := by
  induction m with
  | nil =>
    have hka : (k == a) = false := beq_eq_false_iff_ne.mpr (Ne.symm h)
    simp [alookup, List.find?, hka]
  | cons p m ih =>
    by_cases hpa : (p.1 == a) = true
    · simp [alookup, List.find?, hpa]
    · have hpa2 : (p.1 == a) = false := by simpa using hpa
      have hrec := ih
      simp only [List.cons_append, alookup, List.find?, hpa2, Bool.false_eq_true] at hrec ⊢
      simpa [alookup] using hrec

theorem alookup_dictSet_self {α : Type} (m : List (String × α)) (k : String) (v : α) :
    alookup (dictSet m k v) k = some v := by
  unfold dictSet
  split_ifs with hany
  · exact alookup_map_replace_self m k v hany
  · exact alookup_append_single m k v (Bool.eq_false_iff.mpr hany)

theorem alookup_dictSet_ne {α : Type} (m : List (String × α)) (k a : String) (v : α)
    (h : a ≠ k) : alookup (dictSet m k v) a = alookup m a := by
  unfold dictSet
  split_ifs with hany
  · exact alookup_map_replace m k a v h
  · exact alookup_append_single_ne m k a v h

theorem mem_setAdd {s : List String} {v b : String} (h : b ∈ s) : b ∈ setAdd s v := by
  unfold setAdd
  split_ifs
  · exact h
  · exact List.mem_append_left _ h

theorem edgeMem_graphAdd {m : List (String × List String)} {a b : String}
    (k v : String) (h : edgeMem m a b) : edgeMem (graphAdd m k v) a b := by
  unfold edgeMem dictGet at h ⊢
  unfold graphAdd
  by_cases hak : a = k
  · subst hak
    rw [alookup_dictSet_self]
    exact mem_setAdd h
  · rw [alookup_dictSet_ne _ _ _ _ hak]
    exact h

theorem foldl_graph_update_mono (fp : String) (imports : List ImportStatement)
    (gg : DepGraph) (a b : String) :
    (edgeMem gg.import_graph a b →
      edgeMem (imports.foldl (fun gg imp =>
        { gg with
            import_graph := graphAdd gg.import_graph fp imp.imported_module,
            reverse_graph := graphAdd gg.reverse_graph imp.imported_module fp }) gg).import_graph a b) ∧
    (edgeMem gg.reverse_graph a b →
      edgeMem (imports.foldl (fun gg imp =>
        { gg with
            import_graph := graphAdd gg.import_graph fp imp.imported_module,
            reverse_graph := graphAdd gg.reverse_graph imp.imported_module fp }) gg).reverse_graph a b) := by
  induction imports generalizing gg with
  | nil => exact ⟨id, id⟩
  | cons imp imports ih =>
    constructor
    · intro h
      exact (ih _).1 (edgeMem_graphAdd _ _ h)
    · intro h
      exact (ih _).2 (edgeMem_graphAdd _ _ h)

theorem foldl_graph_update_deps (fp : String) (imports : List ImportStatement)
    (gg : DepGraph) :
    (imports.foldl (fun gg imp =>
      { gg with
          import_graph := graphAdd gg.import_graph fp imp.imported_module,
          reverse_graph := graphAdd gg.reverse_graph imp.imported_module fp }) gg).dependencies =
      gg.dependencies := by
  induction imports generalizing gg with
  | nil => rfl
  | cons imp imports ih => exact ih _

theorem analyze_mono (g : DepGraph) (fp content : String) (lang : Option String)
    (a b : String) :
    (edgeMem g.import_graph a b →
      edgeMem (analyze_file_dependencies g fp content lang).1.import_graph a b) ∧
    (edgeMem g.reverse_graph a b →
      edgeMem (analyze_file_dependencies g fp content lang).1.reverse_graph a b) := by
  unfold analyze_file_dependencies
  dsimp only
  refine ⟨fun h => (foldl_graph_update_mono fp _ _ a b).1 ?_,
          fun h => (foldl_graph_update_mono fp _ _ a b).2 ?_⟩ <;> exact h

/-- Claim C9: across any sequence of `analyze_file_dependencies` calls the
forward and reverse edge sets only grow, while a call replaces
`dependencies[filepath]` with the imports parsed from the latest content. -/
theorem C9_graph_monotone :
    (∀ (g : DepGraph) (calls : List (String × String × Option String)) (a b : String),
      (edgeMem g.import_graph a b → edgeMem (runAnalyses g calls).import_graph a b) ∧
      (edgeMem g.reverse_graph a b → edgeMem (runAnalyses g calls).reverse_graph a b)) ∧
    (∀ (g : DepGraph) (fp content : String) (lang : Option String),
      alookup (analyze_file_dependencies g fp content lang).1.dependencies fp =
        some (analyze_file_dependencies g fp content lang).2) := by
  constructor
  · intro g calls
    induction calls generalizing g with
    | nil => exact fun a b => ⟨id, id⟩
    | cons call calls ih =>
      intro a b
      constructor
      · intro h
        exact ((ih _) a b).1 ((analyze_mono g call.1 call.2.1 call.2.2 a b).1 h)
      · intro h
        exact ((ih _) a b).2 ((analyze_mono g call.1 call.2.1 call.2.2 a b).2 h)
  · intro g fp content lang
    unfold analyze_file_dependencies
    dsimp only
    rw [foldl_graph_update_deps]
    exact alookup_dictSet_self _ _ _

theorem C9_graph_monotone_witness :
    edgeMem preEdgeGraph.import_graph "a.py" "m" ∧
    edgeMem (runAnalyses preEdgeGraph [("b.py", "import n", none)]).import_graph "a.py" "m" ∧
    edgeMem (runAnalyses preEdgeGraph [("b.py", "import n", none)]).reverse_graph "m" "a.py" :=
  ⟨by decide,
   (C9_graph_monotone.1 preEdgeGraph [("b.py", "import n", none)] "a.py" "m").1 (by decide),
   (C9_graph_monotone.1 preEdgeGraph [("b.py", "import n", none)] "m" "a.py").2 (by decide)⟩

theorem mem_dictSet {α : Type} {m : List (String × α)} {k : String} {v : α}
    {p : String × α} (hp : p ∈ dictSet m k v) : p ∈ m ∨ p = (k, v) := by
  unfold dictSet at hp
  split_ifs at hp with hany
  · rcases List.mem_map.mp hp with ⟨q, hq, hfq⟩
    by_cases hqk : (q.1 == k) = true
    · right
      rw [← hfq]
      simp [hqk]
    · left
      have hqk2 : (q.1 == k) = false := by simpa using hqk
      rw [← hfq]
      simp only [hqk2, Bool.false_eq_true, if_false]
      exact hq
  · rcases List.mem_append.mp hp with h | h
    · exact Or.inl h
    · right
      simpa using h

theorem traverse_impact_le (rg : List (String × List String)) (maxD : Nat) :
    ∀ (gas : Nat) (file : String) (depth : Nat) (st : TravState),
      (∀ p ∈ st.impact, p.2 ≤ maxD) →
      ∀ p ∈ (traverse rg maxD gas file depth st).impact, p.2 ≤ maxD := by
  intro gas
  induction gas with
  | zero =>
    intro file depth st hst
    simpa [traverse] using hst
  | succ gas ih =>
    intro file depth st hst
    simp only [traverse]
    split_ifs with hguard
    · exact hst
    · have hdep : depth ≤ maxD := by
        rcases not_or.mp hguard with ⟨h1, _⟩
        omega
      have hst1 : ∀ p ∈ (dictSet st.impact file
          (min (dictGet st.impact file depth) depth)), p.2 ≤ maxD := by
        intro p hp
        rcases mem_dictSet hp with h | h
        · exact hst p h
        · rw [h]
          exact le_trans (min_le_right _ _) hdep
      have H : ∀ (l : List String) (s : TravState), (∀ p ∈ s.impact, p.2 ≤ maxD) →
          ∀ p ∈ (l.foldl (fun s dependent =>
            traverse rg maxD gas dependent (depth + 1) s) s).impact, p.2 ≤ maxD := by
        intro l
        induction l with
        | nil =>
          intro s hs
          simpa using hs
        | cons x xs ihl =>
          intro s hs
          exact ihl _ (ih x (depth + 1) s hs)
      exact H _ ⟨_, _⟩ hst1

theorem mem_removeChanged {p : String × Nat} :
    ∀ (changed : List String) (init : List (String × Nat)),
      p ∈ changed.foldl (fun imp cf => imp.filter (fun q => !(q.1 == cf))) init →
      p ∈ init ∧ ∀ c ∈ changed, p.1 ≠ c := by
  intro changed
  induction changed with
  | nil =>
    intro init h
    exact ⟨h, by simp⟩
  | cons c cs ih =>
    intro init h
    rcases ih _ h with ⟨hmem, hrest⟩
    rcases List.mem_filter.mp hmem with ⟨hinit, hcond⟩
    refine ⟨hinit, ?_⟩
    intro x hx
    rcases List.mem_cons.mp hx with rfl | hx
    · simpa using hcond
    · exact hrest x hx

/-- Claim C5 (amended): `get_impact_radius` returns a map containing no
changed file, and every recorded depth is at most `max_depth`; the recorded
depth is the depth of the first DFS visit, which need not be the minimum over
all paths (see the counterexample). -/
theorem C5_impact_radius_amended (g : DepGraph) (changed : List String)
    (maxD : Nat) (f : String) (d : Nat)
    (h : (f, d) ∈ get_impact_radius g changed maxD) :
    f ∉ changed ∧ d ≤ maxD := by
  unfold get_impact_radius at h
  dsimp only at h
  rcases mem_removeChanged changed _ h with ⟨hmem, hnc⟩
  constructor
  · intro hf
    exact hnc f hf rfl
  · have H : ∀ (l : List String) (s : TravState), (∀ p ∈ s.impact, p.2 ≤ maxD) →
        ∀ p ∈ (l.foldl (fun st cf =>
          traverse g.reverse_graph maxD (maxD + 1) cf 0 st) s).impact, p.2 ≤ maxD := by
      intro l
      induction l with
      | nil =>
        intro s hs
        simpa using hs
      | cons x xs ihl =>
        intro s hs
        exact ihl _ (traverse_impact_le g.reverse_graph maxD (maxD + 1) x 0 s hs)
    exact H changed ⟨[], []⟩ (by simp) (f, d) hmem

theorem C5_impact_radius_amended_witness :
    ("b" ∉ ["a", "d"]) ∧ (1 ≤ 2) :=
  C5_impact_radius_amended impactExampleGraph ["a", "d"] 2 "b" 1 (by decide)

/-- Claim C5 (counterexample): in `impactExampleGraph` the file `x` is a
direct reverse-dependent of the changed file `d` (reachable at depth 1), yet
`get_impact_radius` records depth 2 for it: the DFS from `a` reaches `x`
first through `b` and the visited-set check then prevents the depth-1 visit
from `d` from updating the minimum. -/
theorem C5_counterexample :
    alookup (get_impact_radius impactExampleGraph ["a", "d"] 2) "x" = some 2 ∧
    "d" ∈ ["a", "d"] ∧
    reachN impactExampleGraph.reverse_graph 1 "d" "x" ∧
    1 < 2 :=
  ⟨by decide, by decide, ⟨"d", rfl, by decide⟩, by decide⟩

end DependencyGraph

namespace Scorer

open Schemas

theorem severity_score_bounds (review : CodeReview) (h : review.valid) :
    0 ≤ calculate_severity_score review ∧ calculate_severity_score review ≤ 100 := by
  unfold calculate_severity_score
  split_ifs with hc
  · norm_num
  · constructor
    · apply le_min
      · norm_num
      · have htw : 0 ≤ (review.comments.map
            (fun c => severityWeight c.severity * c.confidence)).sum := by
          apply List.sum_nonneg
          intro x hx
          rcases List.mem_map.mp hx with ⟨c, hcm, rfl⟩
          have hcv := (h c hcm).1
          have hw : 0 ≤ severityWeight c.severity := by
            cases c.severity <;> norm_num [severityWeight]
          exact mul_nonneg hw hcv
        have hden : (0 : ℚ) < (max review.comments.length 1 : ℚ) := by
          have h1 : (1 : ℚ) ≤ (max review.comments.length 1 : ℚ) := by
            have := Nat.le_max_right review.comments.length 1
            exact_mod_cast this
          linarith
        have := div_nonneg htw (le_of_lt hden)
        linarith
    · exact min_le_left _ _

theorem complexity_score_bounds (sa : Option ScorerSA) :
    0 ≤ calculate_complexity_score sa ∧ calculate_complexity_score sa ≤ 100 := by
  unfold calculate_complexity_score
  cases sa with
  | none => norm_num
  | some s =>
    cases hc : s.complexity with
    | none =>
      simp only [hc]
      norm_num
    | some cd =>
      simp only [hc]
      split_ifs <;>
        first
          | (norm_num; done)
          | (refine ⟨le_min (by norm_num) ?_, min_le_left _ _⟩
             have hx : (0 : ℚ) ≤ min (cd.high_complexity_functions.length : ℚ) 10 :=
               le_min (Nat.cast_nonneg _) (by norm_num)
             linarith)

theorem size_score_bounds (diff_info : ScorerDiffInfo) :
    0 ≤ calculate_size_score diff_info ∧ calculate_size_score diff_info ≤ 100 := by
  unfold calculate_size_score
  dsimp only
  split_ifs <;> norm_num

theorem security_score_bounds (review : CodeReview) (sa : Option ScorerSA) :
    0 ≤ calculate_security_score review sa ∧
      calculate_security_score review sa ≤ 100 := by
  unfold calculate_security_score
  dsimp only
  cases sa with
  | none => split_ifs <;> norm_num
  | some s =>
    cases hs : s.security with
    | none =>
      simp only [hs]
      split_ifs <;> norm_num
    | some sec =>
      simp only [hs]
      split_ifs <;> constructor <;> norm_num [le_max_iff, max_le_iff]

theorem test_coverage_score_bounds (diff_info : ScorerDiffInfo) (sa : Option ScorerSA)
    (hcov : ∀ s, sa = some s → ∀ c, s.coverage = some c → 0 ≤ c.coverage_percentage) :
    0 ≤ calculate_test_coverage_score diff_info sa ∧
      calculate_test_coverage_score diff_info sa ≤ 100 := by
  unfold calculate_test_coverage_score
  dsimp only
  cases sa with
  | none => split_ifs <;> norm_num
  | some s =>
    cases hcv : s.coverage with
    | none =>
      simp only [hcv]
      split_ifs <;> norm_num
    | some cov =>
      simp only [hcv]
      have h0 := hcov s rfl cov hcv
      split_ifs <;>
        first
          | (norm_num; done)
          | exact ⟨le_max_left _ _, max_le (by norm_num) (by linarith)⟩

theorem modifiers_bounds (base : ℚ) (rs : RiskSignals) (hb : 0 ≤ base) :
    0 ≤ apply_risk_signal_modifiers base rs ∧
      apply_risk_signal_modifiers base rs ≤ 100 := by
  unfold apply_risk_signal_modifiers
  dsimp only
  constructor
  · apply le_min
    · norm_num
    · split_ifs <;> linarith
  · exact min_le_left _ _

/-- Claim C8 (amended): `calculate_risk_score` returns a total in `[0, 100]`
for every Pydantic-valid review, every diff info, static analysis and risk
signals, provided any supplied `coverage_percentage` is nonnegative — with all
five multipliers enabled and also when `risk_signals` is absent.  (Without
the coverage proviso the total can exceed 100; see the counterexample.) -/
theorem C8_total_in_range (review : CodeReview) (diff_info : ScorerDiffInfo)
    (sa : Option ScorerSA) (rs : Option RiskSignals)
    (hvalid : review.valid)
    (hcov : ∀ s, sa = some s → ∀ c, s.coverage = some c → 0 ≤ c.coverage_percentage) :
    0 ≤ (calculate_risk_score review diff_info sa rs).total ∧
      (calculate_risk_score review diff_info sa rs).total ≤ 100 := by
  obtain ⟨hs0, hs1⟩ := severity_score_bounds review hvalid
  obtain ⟨hc0, hc1⟩ := complexity_score_bounds sa
  obtain ⟨hz0, hz1⟩ := size_score_bounds diff_info
  obtain ⟨he0, he1⟩ := security_score_bounds review sa
  obtain ⟨ht0, ht1⟩ := test_coverage_score_bounds diff_info sa hcov
  unfold calculate_risk_score
  dsimp only
  cases rs with
  | none => constructor <;> linarith
  | some r =>
    have hbase : 0 ≤ calculate_severity_score review * (35/100) +
        calculate_security_score review sa * (25/100) +
        calculate_complexity_score sa * (15/100) +
        calculate_size_score diff_info * (15/100) +
        calculate_test_coverage_score diff_info sa * (1/10) := by
      linarith
    exact modifiers_bounds _ r hbase

theorem C8_total_in_range_witness :
    0 ≤ (calculate_risk_score sampleReview {} none (some allSignals)).total ∧
      (calculate_risk_score sampleReview {} none (some allSignals)).total ≤ 100 :=
  C8_total_in_range sampleReview {} none (some allSignals)
    (fun c hc => absurd hc (List.not_mem_nil c))
    (fun _ hs => nomatch hs)

/-- Claim C8 (counterexample): with a negative `coverage_percentage` (which
nothing validates) and absent risk signals, no clamp runs and the total
exceeds 100: the test-coverage component is `max(0, 100 - (-2000)) = 2100`
and the weighted total is 215.25. -/
theorem C8_counterexample :
    Schemas.CodeReview.valid sampleReview ∧
    100 < (calculate_risk_score sampleReview {} (some negativeCoverageSA) none).total := by
  constructor
  · intro c hc
    simp [sampleReview] at hc
  · norm_num [calculate_risk_score, calculate_severity_score,
      calculate_complexity_score, calculate_size_score, calculate_security_score,
      calculate_test_coverage_score, sampleReview, negativeCoverageSA,
      Schemas.CodeReview.get_comments_by_category]

end Scorer

end PRReview
